import Mathlib

/-!
Verification of the secret-rotation handler in
src/terraform/modules/secrets/rotation.py against its specification.

The Python module is embedded shallowly:

* a JSON secret value is a `SecretDict` of optional string fields
  (`none` models an absent key, `some ""` a present empty value);
* the `random.choice` calls are driven by an abstract index stream
  `r : Nat → Nat` (each draw picks the element at index `r i mod n`);
* the AWS Secrets Manager client is a `StoreBehavior` whose operations
  either return or raise with a message, and `lambda_handler` returns
  both its result and the list of store calls it issued, in order;
* the response body is modelled as the message string itself (the
  source wraps it with json.dumps, a serialisation detail).
-/

namespace Rotation

/-- Python string.ascii_letters: lowercase then uppercase. -/
def ascii_letters : List Char :=
  "abcdefghijklmnopqrstuvwxyzABCDEFGHIJKLMNOPQRSTUVWXYZ".toList

/-- Python string.digits. -/
def digits : List Char := "0123456789".toList

/-- Alphabet of generate_password: letters, digits and the eight symbols. -/
def password_characters : List Char := ascii_letters ++ digits ++ "!@#$%^&*".toList

/-- Alphabet of generate_token and generate_api_key: letters and digits. -/
def alnum_characters : List Char := ascii_letters ++ digits

/-- Embedding of joining length draws of random.choice over a character
list: draw i picks the element at index `r i mod characters.length`
(random.choice returns an element at some index below the length; the
stream r supplies those indices). -/
def joinChoices (r : Nat → Nat) (characters : List Char) (length : Nat) : String :=
  String.mk ((List.range length).map fun i =>
    characters.getD (r i % characters.length) ' ')

/-- Source generate_password: length draws from letters + digits + symbols. -/
def generate_password (r : Nat → Nat) (length : Nat) : String :=
  joinChoices r password_characters length

/-- Source generate_token: length draws from letters + digits. -/
def generate_token (r : Nat → Nat) (length : Nat) : String :=
  joinChoices r alnum_characters length

/-- Source generate_api_key: length draws from letters + digits. -/
def generate_api_key (r : Nat → Nat) (length : Nat) : String :=
  joinChoices r alnum_characters length

/-- A JSON object of string fields as used for the secret value. `none`
models an absent key; `extra` holds any other keys the stored JSON may
carry (the handler and validator never read them). -/
structure SecretDict where
  username : Option String
  password : Option String
  token : Option String
  api_key : Option String
  extra : List (String × String)
deriving DecidableEq

/-- Python truthiness of an optional string: None and the empty string
are falsy, every other string is truthy. -/
def truthy : Option String → Bool
  | none => false
  | some s => !(s == "")

/-- Source validate_secret: each clause is
"if not secret.get(k) or len(secret[k]) < n: return False". The
try/except wrapper of the source cannot fire in this embedding, since
field access is total and len never faults on a present string. -/
def validate_secret (secret : SecretDict) : Bool :=
  if !truthy secret.password || decide ((secret.password.getD "").length < 8) then false
  else if !truthy secret.token || decide ((secret.token.getD "").length < 16) then false
  else if !truthy secret.api_key || decide ((secret.api_key.getD "").length < 16) then false
  else true

/-- The three generator call sites of lambda_handler, as injectable
functions from requested length to produced string (the spec section 8
methodology injects a short generator here to force validation failure). -/
structure Generators where
  gen_password : Nat → String
  gen_token : Nat → String
  gen_api_key : Nat → String

/-- The generators the source actually calls: one shared random stream r,
consumed left to right across the three calls (password uses draws 0 to 31,
token draws 32 to 95, api_key draws 96 to 143). -/
def defaultGenerators (r : Nat → Nat) : Generators where
  gen_password := generate_password r
  gen_token := generate_token fun i => r (32 + i)
  gen_api_key := generate_api_key fun i => r (96 + i)

/-- Lines 26 to 37 of the source: new_secret copies username from the
current secret, defaulting to podinfo-user only when the key is absent,
and takes the three freshly generated credentials. -/
def build_new_secret (gens : Generators) (current_secret : SecretDict) : SecretDict where
  username := some (current_secret.username.getD "podinfo-user")
  password := some (gens.gen_password 32)
  token := some (gens.gen_token 64)
  api_key := some (gens.gen_api_key 48)
  extra := []

/-- One call issued to the AWS Secrets Manager client. -/
inductive StoreCall where
  | get_secret_value (secretId : String)
  | put_secret_value (secretId : String) (secretString : SecretDict) (versionStage : String)
  | update_secret_version_stage (secretId : String) (versionStage : String)
      (moveToVersionId : String) (removeFromVersionId : String)
deriving DecidableEq

/-- Store responses for one invocation: each operation either returns
(.ok) or raises with a message (.error) that the top-level try/except of
the handler catches. get yields the parsed SecretString and the
VersionId; put yields the id of the newly written version (which the
source discards); promote takes the two version-id arguments of
update_secret_version_stage. -/
structure StoreBehavior where
  getResult : Except String (SecretDict × String)
  putResult : SecretDict → Except String String
  promoteResult : String → String → Except String Unit

/-- Handler result: statusCode plus the body message. -/
structure LambdaResult where
  statusCode : Nat
  body : String
deriving DecidableEq

/-- Embedding of lambda_handler (lines 12 to 73). It mirrors the source
step by step: read, generate, build, pending write, validate, promote,
with every store fault caught and turned into a 500 whose body prefixes
the message with "Error during secret rotation: ". The promote call
passes the VersionId of the get response - the old version - as both
MoveToVersionId and RemoveFromVersionId, exactly as the source does,
and the version id returned by the pending write is never used. The
second component is the trace of store calls, in order, including the
call that raised. -/
def lambda_handler (store : StoreBehavior) (gens : Generators) (secret_arn : String) :
    LambdaResult × List StoreCall :=
  match store.getResult with
  | .error e =>
      (⟨500, "Error during secret rotation: " ++ e⟩,
       [StoreCall.get_secret_value secret_arn])
  | .ok (current_secret, versionId) =>
      let new_secret := build_new_secret gens current_secret
      match store.putResult new_secret with
      | .error e =>
          (⟨500, "Error during secret rotation: " ++ e⟩,
           [StoreCall.get_secret_value secret_arn,
            StoreCall.put_secret_value secret_arn new_secret "AWSPENDING"])
      | .ok _newVersionId =>
          if validate_secret new_secret then
            match store.promoteResult versionId versionId with
            | .error e =>
                (⟨500, "Error during secret rotation: " ++ e⟩,
                 [StoreCall.get_secret_value secret_arn,
                  StoreCall.put_secret_value secret_arn new_secret "AWSPENDING",
                  StoreCall.update_secret_version_stage secret_arn "AWSCURRENT"
                    versionId versionId])
            | .ok _ =>
                (⟨200, "Secret rotation completed successfully"⟩,
                 [StoreCall.get_secret_value secret_arn,
                  StoreCall.put_secret_value secret_arn new_secret "AWSPENDING",
                  StoreCall.update_secret_version_stage secret_arn "AWSCURRENT"
                    versionId versionId])
          else
            (⟨500, "Secret validation failed"⟩,
             [StoreCall.get_secret_value secret_arn,
              StoreCall.put_secret_value secret_arn new_secret "AWSPENDING"])

/-- Recognise a get call in a trace. -/
def isGet : StoreCall → Bool
  | StoreCall.get_secret_value _ => true
  | _ => false

/-- Recognise a pending-write call in a trace. -/
def isPut : StoreCall → Bool
  | StoreCall.put_secret_value _ _ _ => true
  | _ => false

/-- Recognise a stage-promotion call in a trace. -/
def isPromote : StoreCall → Bool
  | StoreCall.update_secret_version_stage _ _ _ _ => true
  | _ => false

/-- All four bundle fields present and non-empty (the section 3 invariant
on bundles promoted to current). -/
def allFieldsNonEmpty (b : SecretDict) : Bool :=
  truthy b.username && truthy b.password && truthy b.token && truthy b.api_key

/-- A constant index stream for concrete runs (every draw picks index 0). -/
def zeroStream : Nat → Nat := fun _ => 0

/-- The current bundle of the section 8 happy-path scenario. -/
def specCurrent : SecretDict :=
  ⟨some "alice", some "old", some "oldtok", some "oldkey", []⟩

/-- The store of the section 8 happy-path scenario: the read returns the
alice bundle at version v1, the pending write returns fresh version v2,
and promotion succeeds. -/
def specStore : StoreBehavior where
  getResult := .ok (specCurrent, "v1")
  putResult := fun _ => .ok "v2"
  promoteResult := fun _ _ => .ok ()

/-- A current bundle whose username key is present but empty. -/
def c4current : SecretDict :=
  ⟨some "", some "oldpw", some "oldtok", some "oldkey", []⟩

/-- A store whose read returns the empty-username bundle at version v1. -/
def c4store : StoreBehavior where
  getResult := .ok (c4current, "v1")
  putResult := fun _ => .ok "v2"
  promoteResult := fun _ _ => .ok ()

/-- A store whose read raises, as when the secret identifier is unknown. -/
def c5store : StoreBehavior where
  getResult := .error "ResourceNotFoundException"
  putResult := fun _ => .ok "v2"
  promoteResult := fun _ _ => .ok ()

/-- Injected generators of the section 8 validation-failure scenario: the
password generator returns a four-character string. -/
def shortGens : Generators where
  gen_password := fun _ => "abcd"
  gen_token := fun _ => "0123456789abcdef"
  gen_api_key := fun _ => "0123456789abcdef"

/-- A store identical to the happy-path one except that promotion raises. -/
def c7store : StoreBehavior where
  getResult := .ok (specCurrent, "v1")
  putResult := fun _ => .ok "v2"
  promoteResult := fun _ _ => .error "InternalServiceError"

/-- A string has length zero exactly when it is the empty string. -/
theorem string_length_eq_zero (s : String) : s.length = 0 ↔ s = "" := by
  constructor
  · intro h
    cases s with
    | mk data => simp [String.length] at h; simp [h]
  · intro h
    subst h
    rfl

/-- Every join of draws has exactly the requested length. -/
theorem joinChoices_length (r : Nat → Nat) (chars : List Char) (n : Nat) :
    (joinChoices r chars n).length = n := by
  simp [joinChoices, String.length]

/-- Over a non-empty character list, every drawn character is a member of
the list. -/
theorem joinChoices_mem (r : Nat → Nat) (chars : List Char) (n : Nat) (h : chars ≠ []) :
    ∀ c ∈ (joinChoices r chars n).toList, c ∈ chars := by
  intro c hc
  simp [joinChoices, String.toList] at hc
  obtain ⟨i, _, rfl⟩ := hc
  have hlen : 0 < chars.length := List.length_pos.mpr h
  have hlt : r i % chars.length < chars.length := Nat.mod_lt _ hlen
  simp [List.getElem?_eq_getElem hlt]

/-- One clause of validate_secret passes exactly when the field is present
with at least the threshold length (for a positive threshold). -/
theorem fieldOK_iff (o : Option String) (n : Nat) (hn : 0 < n) :
    ((!truthy o || decide ((o.getD "").length < n)) = false) ↔
      ∃ s, o = some s ∧ n ≤ s.length := by
  cases o with
  | none => simp [truthy]
  | some s =>
      have hz := string_length_eq_zero s
      simp [truthy]
      intro hle he
      have h0 : s.length = 0 := hz.mpr he
      omega

/-- Characterisation of validate_secret: it passes exactly when all three
credentials are present with their threshold lengths. -/
theorem validate_iff (b : SecretDict) :
    validate_secret b = true ↔
      ((∃ p, b.password = some p ∧ 8 ≤ p.length)
       ∧ (∃ t, b.token = some t ∧ 16 ≤ t.length)
       ∧ (∃ k, b.api_key = some k ∧ 16 ≤ k.length)) := by
  rw [← fieldOK_iff b.password 8 (by norm_num),
      ← fieldOK_iff b.token 16 (by norm_num),
      ← fieldOK_iff b.api_key 16 (by norm_num)]
  unfold validate_secret
  cases h1 : (!truthy b.password || decide ((b.password.getD "").length < 8)) <;>
    cases h2 : (!truthy b.token || decide ((b.token.getD "").length < 16)) <;>
      cases h3 : (!truthy b.api_key || decide ((b.api_key.getD "").length < 16)) <;>
        simp [h1, h2, h3]

/-- A join of a positive number of draws is not the empty string. -/
theorem generated_ne_empty (r : Nat → Nat) (chars : List Char) (n : Nat) (hn : 0 < n) :
    joinChoices r chars n ≠ "" := by
  intro h
  have hl := joinChoices_length r chars n
  rw [h] at hl
  simp [String.length] at hl
  omega

/-- The bundle built with the source generators always validates: the
generated credentials have lengths 32, 64 and 48, all above threshold. -/
theorem validate_build_default (r : Nat → Nat) (cs : SecretDict) :
    validate_secret (build_new_secret (defaultGenerators r) cs) = true := by
  rw [validate_iff]
  refine ⟨⟨generate_password r 32, rfl, ?_⟩,
    ⟨generate_token (fun i => r (32 + i)) 64, rfl, ?_⟩,
    ⟨generate_api_key (fun i => r (96 + i)) 48, rfl, ?_⟩⟩
  · rw [show generate_password r 32 = joinChoices r password_characters 32 from rfl,
      joinChoices_length]
    norm_num
  · rw [show generate_token (fun i => r (32 + i)) 64 =
        joinChoices (fun i => r (32 + i)) alnum_characters 64 from rfl, joinChoices_length]
    norm_num
  · rw [show generate_api_key (fun i => r (96 + i)) 48 =
        joinChoices (fun i => r (96 + i)) alnum_characters 48 from rfl, joinChoices_length]
    norm_num

/-- A caught-fault body never equals the validation-failure body. -/
theorem error_body_ne_validation_msg (e : String) :
    ("Error during secret rotation: " ++ e) ≠ "Secret validation failed" := by
  intro h
  have h2 := congrArg String.length h
  rw [String.length_append] at h2
  have h3 : 30 + e.length = 24 := h2
  omega

/-- Run equation when the read raises. -/
theorem run_get_error (store : StoreBehavior) (gens : Generators) (arn e : String)
    (h : store.getResult = .error e) :
    lambda_handler store gens arn =
      (⟨500, "Error during secret rotation: " ++ e⟩,
       [StoreCall.get_secret_value arn]) := by
  simp [lambda_handler, h]

/-- Run equation when the read returns and the pending write raises. -/
theorem run_put_error (store : StoreBehavior) (gens : Generators) (arn : String)
    (cs : SecretDict) (vid e : String)
    (hget : store.getResult = .ok (cs, vid))
    (hput : store.putResult (build_new_secret gens cs) = .error e) :
    lambda_handler store gens arn =
      (⟨500, "Error during secret rotation: " ++ e⟩,
       [StoreCall.get_secret_value arn,
        StoreCall.put_secret_value arn (build_new_secret gens cs) "AWSPENDING"]) := by
  simp [lambda_handler, hget, hput]

/-- Run equation when the pending write lands but validation fails. -/
theorem run_validation_failed (store : StoreBehavior) (gens : Generators) (arn : String)
    (cs : SecretDict) (vid pvid : String)
    (hget : store.getResult = .ok (cs, vid))
    (hput : store.putResult (build_new_secret gens cs) = .ok pvid)
    (hval : validate_secret (build_new_secret gens cs) = false) :
    lambda_handler store gens arn =
      (⟨500, "Secret validation failed"⟩,
       [StoreCall.get_secret_value arn,
        StoreCall.put_secret_value arn (build_new_secret gens cs) "AWSPENDING"]) := by
  simp [lambda_handler, hget, hput, hval]

/-- Run equation when validation passes but the stage move raises. -/
theorem run_promote_error (store : StoreBehavior) (gens : Generators) (arn : String)
    (cs : SecretDict) (vid pvid e : String)
    (hget : store.getResult = .ok (cs, vid))
    (hput : store.putResult (build_new_secret gens cs) = .ok pvid)
    (hval : validate_secret (build_new_secret gens cs) = true)
    (hprom : store.promoteResult vid vid = .error e) :
    lambda_handler store gens arn =
      (⟨500, "Error during secret rotation: " ++ e⟩,
       [StoreCall.get_secret_value arn,
        StoreCall.put_secret_value arn (build_new_secret gens cs) "AWSPENDING",
        StoreCall.update_secret_version_stage arn "AWSCURRENT" vid vid]) := by
  simp [lambda_handler, hget, hput, hval, hprom]

/-- Run equation for the fully successful rotation. -/
theorem run_success (store : StoreBehavior) (gens : Generators) (arn : String)
    (cs : SecretDict) (vid pvid : String)
    (hget : store.getResult = .ok (cs, vid))
    (hput : store.putResult (build_new_secret gens cs) = .ok pvid)
    (hval : validate_secret (build_new_secret gens cs) = true)
    (hprom : store.promoteResult vid vid = .ok ()) :
    lambda_handler store gens arn =
      (⟨200, "Secret rotation completed successfully"⟩,
       [StoreCall.get_secret_value arn,
        StoreCall.put_secret_value arn (build_new_secret gens cs) "AWSPENDING",
        StoreCall.update_secret_version_stage arn "AWSCURRENT" vid vid]) := by
  simp [lambda_handler, hget, hput, hval, hprom]

/-- Every run falls into one of the five branch equations. -/
theorem run_cases (store : StoreBehavior) (gens : Generators) (arn : String) :
    (∃ e, store.getResult = .error e ∧
      lambda_handler store gens arn =
        (⟨500, "Error during secret rotation: " ++ e⟩,
         [StoreCall.get_secret_value arn]))
    ∨ (∃ cs vid e, store.getResult = .ok (cs, vid) ∧
        lambda_handler store gens arn =
          (⟨500, "Error during secret rotation: " ++ e⟩,
           [StoreCall.get_secret_value arn,
            StoreCall.put_secret_value arn (build_new_secret gens cs) "AWSPENDING"]))
    ∨ (∃ cs vid, store.getResult = .ok (cs, vid) ∧
        validate_secret (build_new_secret gens cs) = false ∧
        lambda_handler store gens arn =
          (⟨500, "Secret validation failed"⟩,
           [StoreCall.get_secret_value arn,
            StoreCall.put_secret_value arn (build_new_secret gens cs) "AWSPENDING"]))
    ∨ (∃ cs vid e, store.getResult = .ok (cs, vid) ∧
        lambda_handler store gens arn =
          (⟨500, "Error during secret rotation: " ++ e⟩,
           [StoreCall.get_secret_value arn,
            StoreCall.put_secret_value arn (build_new_secret gens cs) "AWSPENDING",
            StoreCall.update_secret_version_stage arn "AWSCURRENT" vid vid]))
    ∨ (∃ cs vid, store.getResult = .ok (cs, vid) ∧
        lambda_handler store gens arn =
          (⟨200, "Secret rotation completed successfully"⟩,
           [StoreCall.get_secret_value arn,
            StoreCall.put_secret_value arn (build_new_secret gens cs) "AWSPENDING",
            StoreCall.update_secret_version_stage arn "AWSCURRENT" vid vid])) := by
  rcases hget : store.getResult with e | ⟨cs, vid⟩
  · exact Or.inl ⟨e, rfl, run_get_error store gens arn e hget⟩
  · rcases hput : store.putResult (build_new_secret gens cs) with e | pvid
    · exact Or.inr (Or.inl ⟨cs, vid, e, rfl,
        run_put_error store gens arn cs vid e hget hput⟩)
    · cases hval : validate_secret (build_new_secret gens cs) with
      | false =>
          exact Or.inr (Or.inr (Or.inl ⟨cs, vid, rfl, hval,
            run_validation_failed store gens arn cs vid pvid hget hput hval⟩))
      | true =>
          rcases hprom : store.promoteResult vid vid with e | u
          · exact Or.inr (Or.inr (Or.inr (Or.inl ⟨cs, vid, e, rfl,
              run_promote_error store gens arn cs vid pvid e hget hput hval hprom⟩)))
          · cases u
            exact Or.inr (Or.inr (Or.inr (Or.inr ⟨cs, vid, rfl,
              run_success store gens arn cs vid pvid hget hput hval hprom⟩)))

/-- C1: on the section 8 happy path (read returns the alice bundle at
version v1, the pending write returns v2) the handler does return 200,
but the stage-move call it issues carries the old version v1 as both
MoveToVersionId and RemoveFromVersionId; the v2 returned by the pending
write appears nowhere in the trace, contradicting the claim that promote
receives the new version as the one gaining CURRENT. -/
theorem promote_targets_old_version :
    (lambda_handler specStore (defaultGenerators zeroStream) "arn").2 =
      [StoreCall.get_secret_value "arn",
       StoreCall.put_secret_value "arn"
         (build_new_secret (defaultGenerators zeroStream) specCurrent) "AWSPENDING",
       StoreCall.update_secret_version_stage "arn" "AWSCURRENT" "v1" "v1"]
    ∧ (lambda_handler specStore (defaultGenerators zeroStream) "arn").1.statusCode = 200
    ∧ specStore.putResult (build_new_secret (defaultGenerators zeroStream) specCurrent) =
        Except.ok "v2"
    ∧ ("v1" : String) ≠ "v2" := by
  exact ⟨rfl, rfl, rfl, by decide⟩

/-- C2: for every positive length each generator returns a string of
exactly that length over its alphabet (letters, digits and the eight
symbols for passwords; letters and digits for tokens and api keys), and
the handler instantiates them at lengths 32, 64 and 48. -/
theorem generate_length_and_alphabet (r : Nat → Nat) (n : Nat) (hn : 0 < n) :
    ((generate_password r n).length = n
      ∧ ∀ c ∈ (generate_password r n).toList, c ∈ password_characters)
    ∧ ((generate_token r n).length = n
      ∧ ∀ c ∈ (generate_token r n).toList, c ∈ alnum_characters)
    ∧ ((generate_api_key r n).length = n
      ∧ ∀ c ∈ (generate_api_key r n).toList, c ∈ alnum_characters)
    ∧ (∀ cs, ((build_new_secret (defaultGenerators r) cs).password.getD "").length = 32
      ∧ ((build_new_secret (defaultGenerators r) cs).token.getD "").length = 64
      ∧ ((build_new_secret (defaultGenerators r) cs).api_key.getD "").length = 48) := by
  refine ⟨⟨joinChoices_length r password_characters n,
      joinChoices_mem r password_characters n (by decide)⟩,
    ⟨joinChoices_length r alnum_characters n,
      joinChoices_mem r alnum_characters n (by decide)⟩,
    ⟨joinChoices_length r alnum_characters n,
      joinChoices_mem r alnum_characters n (by decide)⟩, ?_⟩
  intro cs
  refine ⟨?_, ?_, ?_⟩ <;>
    simp [build_new_secret, defaultGenerators, generate_password, generate_token,
      generate_api_key, joinChoices_length]

/-- Witness for C2 at length 5 with a concrete stream. -/
theorem generate_length_and_alphabet_witness :
    (generate_password (fun _ => 7) 5).length = 5 :=
  (generate_length_and_alphabet (fun _ => 7) 5 (by norm_num)).1.1

/-- C3: validate_secret is true exactly when the password is present with
length at least 8 and the token and api_key are present with length at
least 16; being a total boolean function, any missing or empty field
yields false rather than a propagated error. -/
theorem validate_secret_iff_thresholds (b : SecretDict) :
    validate_secret b = true ↔
      ((∃ p, b.password = some p ∧ 8 ≤ p.length)
       ∧ (∃ t, b.token = some t ∧ 16 ≤ t.length)
       ∧ (∃ k, b.api_key = some k ∧ 16 ≤ k.length)) :=
  validate_iff b

/-- Witness for C3 on a concrete bundle meeting all three thresholds. -/
theorem validate_secret_iff_thresholds_witness :
    validate_secret
      ⟨none, some "p4ssw0rd", some "0123456789abcdef", some "0123456789abcdef", []⟩ = true :=
  (validate_secret_iff_thresholds
      ⟨none, some "p4ssw0rd", some "0123456789abcdef", some "0123456789abcdef", []⟩).mpr
    ⟨⟨"p4ssw0rd", rfl, by decide⟩, ⟨"0123456789abcdef", rfl, by decide⟩,
      ⟨"0123456789abcdef", rfl, by decide⟩⟩

/-- C4 counterexample: when the previous bundle carries username as a
present but empty field, the handler still reaches the stage-move call
and returns 200, yet the pending bundle it wrote and promoted has an
empty username, so not all four fields are non-empty. -/
theorem promoted_bundle_empty_username :
    (lambda_handler c4store (defaultGenerators zeroStream) "arn").2 =
      [StoreCall.get_secret_value "arn",
       StoreCall.put_secret_value "arn"
         (build_new_secret (defaultGenerators zeroStream) c4current) "AWSPENDING",
       StoreCall.update_secret_version_stage "arn" "AWSCURRENT" "v1" "v1"]
    ∧ (lambda_handler c4store (defaultGenerators zeroStream) "arn").1.statusCode = 200
    ∧ (build_new_secret (defaultGenerators zeroStream) c4current).username = some ""
    ∧ allFieldsNonEmpty (build_new_secret (defaultGenerators zeroStream) c4current) = false := by
  exact ⟨rfl, rfl, rfl, rfl⟩

/-- C4 amended: the bundle the handler builds and promotes has all four
fields present and non-empty provided the previous username was not
present-but-empty; the generated credentials are always non-empty, and
username defaults only when the key is absent. -/
theorem promoted_bundle_fields_nonEmpty (r : Nat → Nat) (cs : SecretDict)
    (h : cs.username ≠ some "") :
    allFieldsNonEmpty (build_new_secret (defaultGenerators r) cs) = true := by
  have hu : cs.username.getD "podinfo-user" ≠ "" := by
    cases hcs : cs.username with
    | none => simp
    | some u =>
        simp
        intro he
        exact h (by rw [hcs, he])
  have hp : joinChoices r password_characters 32 ≠ "" :=
    generated_ne_empty r password_characters 32 (by norm_num)
  have ht : joinChoices (fun i => r (32 + i)) alnum_characters 64 ≠ "" :=
    generated_ne_empty (fun i => r (32 + i)) alnum_characters 64 (by norm_num)
  have hk : joinChoices (fun i => r (96 + i)) alnum_characters 48 ≠ "" :=
    generated_ne_empty (fun i => r (96 + i)) alnum_characters 48 (by norm_num)
  simp [allFieldsNonEmpty, build_new_secret, defaultGenerators, truthy,
    generate_password, generate_token, generate_api_key, hu, hp, ht, hk]

/-- Witness for the amended C4 with the alice bundle. -/
theorem promoted_bundle_fields_nonEmpty_witness :
    allFieldsNonEmpty (build_new_secret (defaultGenerators zeroStream) specCurrent) = true :=
  promoted_bundle_fields_nonEmpty zeroStream specCurrent (by decide)

/-- C5: if the read raises, the handler returns the 500 error result with
the caught message and its trace holds the read call only, so no pending
write and no stage move were issued and the store is unchanged. -/
theorem rotate_read_failure (store : StoreBehavior) (gens : Generators) (arn e : String)
    (h : store.getResult = .error e) :
    lambda_handler store gens arn =
      (⟨500, "Error during secret rotation: " ++ e⟩,
       [StoreCall.get_secret_value arn]) :=
  run_get_error store gens arn e h

/-- Witness for C5 on the store whose read raises. -/
theorem rotate_read_failure_witness :
    lambda_handler c5store (defaultGenerators zeroStream) "arn" =
      (⟨500, "Error during secret rotation: ResourceNotFoundException"⟩,
       [StoreCall.get_secret_value "arn"]) :=
  rotate_read_failure c5store (defaultGenerators zeroStream) "arn"
    "ResourceNotFoundException" rfl

/-- C6: if the pending write lands and validation of the new bundle
fails, the handler returns 500 with the validation-failed body and its
trace ends at the pending write: the stage move is never issued and the
written pending version is neither promoted nor removed. -/
theorem rotate_validation_failure (store : StoreBehavior) (gens : Generators)
    (arn : String) (cs : SecretDict) (vid pvid : String)
    (hget : store.getResult = .ok (cs, vid))
    (hput : store.putResult (build_new_secret gens cs) = .ok pvid)
    (hval : validate_secret (build_new_secret gens cs) = false) :
    lambda_handler store gens arn =
      (⟨500, "Secret validation failed"⟩,
       [StoreCall.get_secret_value arn,
        StoreCall.put_secret_value arn (build_new_secret gens cs) "AWSPENDING"]) :=
  run_validation_failed store gens arn cs vid pvid hget hput hval

/-- Witness for C6: injecting a four-character password generator makes
validation fail and the run stop after the pending write. -/
theorem rotate_validation_failure_witness :
    lambda_handler specStore shortGens "arn" =
      (⟨500, "Secret validation failed"⟩,
       [StoreCall.get_secret_value "arn",
        StoreCall.put_secret_value "arn" (build_new_secret shortGens specCurrent)
          "AWSPENDING"]) :=
  rotate_validation_failure specStore shortGens "arn" specCurrent "v1" "v2"
    rfl rfl (by decide)

/-- C7: every fault raised by a store operation is caught and converted
to the 500 result whose body prefixes the message; the status code is
always 200 or 500 (nothing propagates past the handler); and in every run
each store operation is called at most once, so nothing is retried and
the written pending material is never rolled back. -/
theorem rotate_fault_handling (store : StoreBehavior) (gens : Generators) (arn : String) :
    ((lambda_handler store gens arn).1.statusCode = 200 ∨
      (lambda_handler store gens arn).1.statusCode = 500)
    ∧ (∀ e, store.getResult = .error e →
        lambda_handler store gens arn =
          (⟨500, "Error during secret rotation: " ++ e⟩,
           [StoreCall.get_secret_value arn]))
    ∧ (∀ cs vid e, store.getResult = .ok (cs, vid) →
        store.putResult (build_new_secret gens cs) = .error e →
        lambda_handler store gens arn =
          (⟨500, "Error during secret rotation: " ++ e⟩,
           [StoreCall.get_secret_value arn,
            StoreCall.put_secret_value arn (build_new_secret gens cs) "AWSPENDING"]))
    ∧ (∀ cs vid pvid e, store.getResult = .ok (cs, vid) →
        store.putResult (build_new_secret gens cs) = .ok pvid →
        validate_secret (build_new_secret gens cs) = true →
        store.promoteResult vid vid = .error e →
        lambda_handler store gens arn =
          (⟨500, "Error during secret rotation: " ++ e⟩,
           [StoreCall.get_secret_value arn,
            StoreCall.put_secret_value arn (build_new_secret gens cs) "AWSPENDING",
            StoreCall.update_secret_version_stage arn "AWSCURRENT" vid vid]))
    ∧ ((lambda_handler store gens arn).2.countP isGet ≤ 1
        ∧ (lambda_handler store gens arn).2.countP isPut ≤ 1
        ∧ (lambda_handler store gens arn).2.countP isPromote ≤ 1) := by
  refine ⟨?_, ?_, ?_, ?_, ?_⟩
  · rcases run_cases store gens arn with ⟨e, _, hrun⟩ | ⟨cs, vid, e, _, hrun⟩ |
      ⟨cs, vid, _, _, hrun⟩ | ⟨cs, vid, e, _, hrun⟩ | ⟨cs, vid, _, hrun⟩ <;>
      rw [hrun] <;> simp
  · intro e h
    exact run_get_error store gens arn e h
  · intro cs vid e h1 h2
    exact run_put_error store gens arn cs vid e h1 h2
  · intro cs vid pvid e h1 h2 h3 h4
    exact run_promote_error store gens arn cs vid pvid e h1 h2 h3 h4
  · rcases run_cases store gens arn with ⟨e, _, hrun⟩ | ⟨cs, vid, e, _, hrun⟩ |
      ⟨cs, vid, _, _, hrun⟩ | ⟨cs, vid, e, _, hrun⟩ | ⟨cs, vid, _, hrun⟩ <;>
      rw [hrun] <;> simp [List.countP_cons, isGet, isPut, isPromote]

/-- Witness for C7 on the store whose stage move raises. -/
theorem rotate_fault_handling_witness :
    lambda_handler c7store (defaultGenerators zeroStream) "arn" =
      (⟨500, "Error during secret rotation: InternalServiceError"⟩,
       [StoreCall.get_secret_value "arn",
        StoreCall.put_secret_value "arn"
          (build_new_secret (defaultGenerators zeroStream) specCurrent) "AWSPENDING",
        StoreCall.update_secret_version_stage "arn" "AWSCURRENT" "v1" "v1"]) :=
  (rotate_fault_handling c7store (defaultGenerators zeroStream) "arn").2.2.2.1
    specCurrent "v1" "v2" "InternalServiceError" rfl rfl
    (validate_build_default zeroStream specCurrent) rfl

/-- C8: the new bundle copies username from the current bundle whenever
the key is present, defaults to podinfo-user when it is absent, and its
password, token and api_key are exactly the freshly generated strings. -/
theorem new_secret_construction (r : Nat → Nat) (cs : SecretDict) :
    ((build_new_secret (defaultGenerators r) cs).username =
        some (cs.username.getD "podinfo-user"))
    ∧ (∀ u, cs.username = some u →
        (build_new_secret (defaultGenerators r) cs).username = some u)
    ∧ (cs.username = none →
        (build_new_secret (defaultGenerators r) cs).username = some "podinfo-user")
    ∧ (build_new_secret (defaultGenerators r) cs).password = some (generate_password r 32)
    ∧ (build_new_secret (defaultGenerators r) cs).token =
        some (generate_token (fun i => r (32 + i)) 64)
    ∧ (build_new_secret (defaultGenerators r) cs).api_key =
        some (generate_api_key (fun i => r (96 + i)) 48) := by
  refine ⟨rfl, ?_, ?_, rfl, rfl, rfl⟩
  · intro u hu
    simp [build_new_secret, hu]
  · intro hu
    simp [build_new_secret, hu]

/-- Witness for C8: the alice username is copied into the new bundle. -/
theorem new_secret_construction_witness :
    (build_new_secret (defaultGenerators zeroStream) specCurrent).username = some "alice" :=
  (new_secret_construction zeroStream specCurrent).2.1 "alice" rfl

/-- C9: with the source generators the built bundle always validates
(lengths 32, 64, 48 clear the thresholds 8, 16, 16), so the
validation-failed branch is unreachable: no run of the handler returns
the validation-failed body. -/
theorem validation_branch_unreachable (store : StoreBehavior) (r : Nat → Nat)
    (arn : String) (cs : SecretDict) :
    validate_secret (build_new_secret (defaultGenerators r) cs) = true
    ∧ (lambda_handler store (defaultGenerators r) arn).1.body ≠
        "Secret validation failed" := by
  refine ⟨validate_build_default r cs, ?_⟩
  rcases run_cases store (defaultGenerators r) arn with ⟨e, _, hrun⟩ |
    ⟨cs2, vid, e, _, hrun⟩ | ⟨cs2, vid, _, hval, hrun⟩ | ⟨cs2, vid, e, _, hrun⟩ |
    ⟨cs2, vid, _, hrun⟩
  · rw [hrun]
    exact error_body_ne_validation_msg e
  · rw [hrun]
    exact error_body_ne_validation_msg e
  · exact absurd (validate_build_default r cs2) (by simp [hval])
  · rw [hrun]
    exact error_body_ne_validation_msg e
  · rw [hrun]
    intro h
    have h2 : "Secret rotation completed successfully" = "Secret validation failed" := h
    exact absurd h2 (by decide)

/-- Witness for C9 on the happy-path store. -/
theorem validation_branch_unreachable_witness :
    (lambda_handler specStore (defaultGenerators zeroStream) "arn").1.body ≠
      "Secret validation failed" :=
  (validation_branch_unreachable specStore zeroStream "arn" specCurrent).2

/-- C10: validate_secret reads only password, token and api_key: two
bundles agreeing on those three fields validate identically, whatever
their username or extra fields. -/
theorem validate_depends_only_on_credentials (b1 b2 : SecretDict)
    (hp : b1.password = b2.password) (ht : b1.token = b2.token)
    (hk : b1.api_key = b2.api_key) :
    validate_secret b1 = validate_secret b2 := by
  unfold validate_secret
  rw [hp, ht, hk]

/-- Witness for C10: bundles differing in username and extra fields. -/
theorem validate_depends_only_on_credentials_witness :
    validate_secret
        ⟨some "alice", some "p4ssw0rd", some "0123456789abcdef",
          some "0123456789abcdef", []⟩ =
      validate_secret
        ⟨none, some "p4ssw0rd", some "0123456789abcdef",
          some "0123456789abcdef", [("role", "admin")]⟩ :=
  validate_depends_only_on_credentials _ _ rfl rfl rfl

end Rotation

